import Mathlib

/-!
# Shallow embedding of the ai2thor adapter layers

This file embeds the two source files of the repository:

* `src/ai2thor/gym.py` — the Gym-style environment wrapper `GymTHOR`
  (episode lifecycle: construct / `reset` / `step` / `close`); and
* `src/ai2thor/agents/jarvis.py` — the agent facade `Jarvis`
  (`pos` / `rot` / `pose` / `reachable_positions` / `teleport`).

The external simulator (the `Controller`) is modelled as an opaque oracle
`ControllerEnv : ControllerAction → Event → Event` supplied as a parameter;
the controller's own state is its latest `Event` plus the trace of actions
issued so far (the trace lets theorems speak about "issues no simulator
call" and about the exact parameters of issued requests).  The process-global
pseudo-random generators (Python's `random` module, seeded by
`GymTHOR._seed`) are modelled as an explicit deterministic state machine
`Rng`; the exact update function is a stand-in for the external Mersenne
Twister — only its determinism and its range matter to the claims.
Fallible Python code (exceptions) is modelled with `Except PyError`.
-/

/-- A 3-component vector, as the `{x, y, z}` dictionaries of the protocol
(`agent.position`, `agent.rotation`, entries of `reachablePositions`).
Components are modelled as rationals standing for Python floats. -/
structure Vec3 where
  x : ℚ
  y : ℚ
  z : ℚ
deriving Repr, DecidableEq

/-- The `metadata['agent']` mapping of an event: position, rotation and
camera horizon (`agent.position`, `agent.rotation`, `agent.cameraHorizon`). -/
structure AgentMetadata where
  position : Vec3
  rotation : Vec3
  cameraHorizon : ℚ
deriving Repr, DecidableEq

/-- The `event.metadata` mapping: the keys the two source files read
(`agent`, `reachablePositions`, `lastActionSuccess`). -/
structure EventMetadata where
  agent : AgentMetadata
  reachablePositions : List Vec3
  lastActionSuccess : Bool
deriving Repr, DecidableEq

/-- One simulation tick's output snapshot: `.frame` (the image buffer,
modelled as a flat list of channel values) and `.metadata`. -/
structure Event where
  frame : List ℚ
  metadata : EventMetadata
deriving Repr, DecidableEq

/-- The requests the two source files send to the simulator:
`controller.reset(scene)`, `GetReachablePositions` (with the optional
`renderImage` keyword: `Jarvis.reachable_positions` passes `False`,
`GymTHOR` omits it), and `TeleportFull` (params `x`, `y`, `z`,
`rotation={x,y,z}` and an optional `horizon`: `Jarvis.teleport` passes a
horizon, `GymTHOR.reset` omits it). -/
inductive ControllerAction where
  | resetScene (scene : String)
  | getReachablePositions (renderImage : Option Bool)
  | teleportFull (x y z : ℚ) (rotation : Vec3) (horizon : Option ℚ)
deriving Repr, DecidableEq

/-- The behaviour of the external simulator: given the request and the
previous latest event, produce the next event.  Opaque collaborator,
supplied as a parameter to every operation that contacts the simulator. -/
def ControllerEnv : Type := ControllerAction → Event → Event

/-- The controller proxy's state as seen by this repository: the single
"latest event" slot, plus the trace of requests issued so far (the trace is
bookkeeping for the proofs; the Python object keeps only `last_event`). -/
structure Controller where
  last_event : Event
  trace : List ControllerAction
deriving Repr, DecidableEq

/-- `controller.step(action, **params)`: one blocking round trip.  The
oracle produces the next event, which becomes `last_event`; the request is
recorded on the trace.  Returns the new event (Python returns it too). -/
def Controller.step (c : Controller) (env : ControllerEnv) (a : ControllerAction) :
    Event × Controller :=
  let e := env a c.last_event
  (e, { last_event := e, trace := c.trace ++ [a] })

/-- `controller.reset(scene)`: modelled as issuing a scene-reset request
through the same round-trip mechanism. -/
def Controller.reset (c : Controller) (env : ControllerEnv) (scene : String) :
    Event × Controller :=
  c.step env (.resetScene scene)

/-- The Python exceptions the embedded code can raise. -/
inductive PyError where
  | assertionError (msg : String)
  | notImplementedError
  | indexError
  | keyError
deriving Repr, DecidableEq

/-- State of the process-global pseudo-random generators (Python's `random`
module and `np.random`), modelled as one deterministic state machine. -/
structure Rng where
  state : Nat
deriving Repr, DecidableEq

/-- `random.seed(seed_num)`: the generator state becomes a function of the
seed alone. -/
def Rng.seed (seed_num : Nat) : Rng := ⟨seed_num⟩

/-- One raw draw.  A linear-congruential update stands in for the external
Mersenne Twister: the claims depend only on determinism, not on the
particular pseudo-random sequence. -/
def Rng.next (r : Rng) : Nat × Rng :=
  let s := (r.state * 1103515245 + 12345) % 2147483648
  (s, ⟨s⟩)

/-- `random.choice(seq)`: picks `seq[_randbelow(len(seq))]`; raises
`IndexError` on an empty sequence (modelled as `none`). -/
def randomChoice {α : Type} (r : Rng) : List α → Option (α × Rng)
  | [] => none
  | a :: rest =>
    let (v, r1) := r.next
    some ((a :: rest).get ⟨v % (a :: rest).length, Nat.mod_lt _ (Nat.succ_pos _)⟩, r1)

/-- `np.arange(0, stop, step)` for a positive rational `step`: the values
`k * step` for `0 ≤ k < ⌈stop / step⌉`. -/
def npArange (stop step : ℚ) : List ℚ :=
  (List.range (Int.ceil (stop / step)).toNat).map (fun k : ℕ => (k : ℚ) * step)

/-- Lookup in an insertion-ordered dictionary with string keys
(`d[key]`; `none` models `KeyError`). -/
def dictGet {α : Type} (d : List (String × α)) (key : String) : Option α :=
  (d.find? (fun p => p.1 == key)).map (·.2)

/-- `d[key] = v` on an insertion-ordered dictionary: overwrite in place if
the key exists, else append. -/
def dictSet {α : Type} (d : List (String × α)) (key : String) (v : α) :
    List (String × α) :=
  if d.any (fun p => p.1 == key) then
    d.map (fun p => if p.1 == key then (key, v) else p)
  else
    d ++ [(key, v)]

/-- A reachable floor point as returned by `Jarvis.reachable_positions`:
the `{'x': …, 'z': …}` dictionaries it builds. -/
structure ReachablePosition where
  x : ℚ
  z : ℚ
deriving Repr, DecidableEq

/-- The `{x, z, rot_y, horizon}` record returned by `Jarvis.pose`. -/
structure Pose where
  x : ℚ
  z : ℚ
  rot_y : ℚ
  horizon : ℚ
deriving Repr, DecidableEq

/-- State of the `Jarvis` agent facade (`src/ai2thor/agents/jarvis.py`).
`_base_controller` is the wrapped controller proxy.  `horizon` is —
modelled from the spec: the `Agent` base class (`agent.py`, not under
`src/`) keeps `self.horizon`, the facade's last requested camera horizon,
which `Jarvis.teleport` reads as its default; per the spec it is "the
facade's last requested horizon, not necessarily the Event's horizon". -/
structure Jarvis where
  _base_controller : Controller
  horizon : ℚ
deriving Repr, DecidableEq

/-- `Jarvis.pos`: the `(x, z)` position of the agent, read from the latest
event's metadata.  A pure read: the state comes back unchanged (the builder
signature makes "issues no controller request" a provable statement). -/
def Jarvis.pos (s : Jarvis) : (ℚ × ℚ) × Jarvis :=
  let event := s._base_controller.last_event
  let pos := event.metadata.agent.position
  ((pos.x, pos.z), s)

/-- `Jarvis.rot`: the yaw (heading direction) of the agent, read from the
latest event's metadata. -/
def Jarvis.rot (s : Jarvis) : ℚ × Jarvis :=
  let event := s._base_controller.last_event
  (event.metadata.agent.rotation.y, s)

/-- `Jarvis.pose`: the `{x, z, rot_y, horizon}` record, built from the
latest event (`horizon` directly, `x`/`z` via `pos`, `rot_y` via `rot`). -/
def Jarvis.pose (s : Jarvis) : Pose × Jarvis :=
  let event := s._base_controller.last_event
  let horizon := event.metadata.agent.cameraHorizon
  let (pos, s1) := Jarvis.pos s
  let (rot, s2) := Jarvis.rot s1
  ({ x := pos.1, z := pos.2, rot_y := rot, horizon := horizon }, s2)

/-- Modelled from the spec: `Agent._step` (defined on the `Agent` base
class in `agent.py`, which is not under `src/`) issues one request through
the wrapped controller and "returns boolean success as reported by the
underlying action" — the success flag of the resulting event. -/
def Jarvis._step (env : ControllerEnv) (s : Jarvis) (a : ControllerAction) :
    Bool × Jarvis :=
  let (e, c) := s._base_controller.step env a
  (e.metadata.lastActionSuccess, { s with _base_controller := c })

/-- `Jarvis.reachable_positions`: issues `GetReachablePositions` with
`renderImage=False`, then reads the reachable positions off the latest
event, keeping only `x` and `z`.  Recomputed on every call (no cache). -/
def Jarvis.reachable_positions (env : ControllerEnv) (s : Jarvis) :
    List ReachablePosition × Jarvis :=
  let (_, s1) := Jarvis._step env s (.getReachablePositions (some false))
  let event := s1._base_controller.last_event
  let positions := event.metadata.reachablePositions
  (positions.map (fun pos => { x := pos.x, z := pos.z }), s1)

/-- `Jarvis.teleport(x?, z?, rot_y?, horizon?)`: omitted `x`/`z` default to
the latest event's position, omitted `rot_y` to the latest event's yaw,
omitted `horizon` to the facade's stored `self.horizon`; `y`, `rot_x` and
`rot_z` are always carried over from the latest event.  Issues one
`TeleportFull` request and returns its success flag. -/
def Jarvis.teleport (env : ControllerEnv) (s : Jarvis)
    (x z rot_y horizon : Option ℚ) : Bool × Jarvis :=
  let event := s._base_controller.last_event
  let pos := event.metadata.agent.position
  let y := pos.y
  let x := x.getD pos.x
  let z := z.getD pos.z
  let rot := event.metadata.agent.rotation
  let rot_x := rot.x
  let rot_z := rot.z
  let rot_y := rot_y.getD rot.y
  let horizon := horizon.getD s.horizon
  Jarvis._step env s
    (.teleportFull x y z { x := rot_x, y := rot_y, z := rot_z } (some horizon))

/-- State of the `GymTHOR` wrapper (`src/ai2thor/gym.py`): the attributes
set in `__init__`.  `action_space` is the subclass-supplied discrete action
space (the base-class property is `raise NotImplementedError()`, modelled
as `none` — abstract by design); `_scene_names` and `initial_positions`
are the values computed at construction from the (likewise
subclass-supplied) scene enumeration. -/
structure GymTHOR where
  controller : Controller
  frame_height : Nat
  frame_width : Nat
  _scene_names : List String
  initial_positions : List (String × List Vec3)
  _episode_already_done : Bool
  time_step : Nat
  horizon : Nat
  rotateStepDegrees : ℚ
  action_space : Option (List ℤ)
deriving Repr, DecidableEq

/-- `GymTHOR.observation(event)`: the normalized RGB frame,
`event.frame / 255`. -/
def GymTHOR.observation (event : Event) : List ℚ :=
  let rgb_image := event.frame
  rgb_image.map (fun v => v / 255)

/-- `GymTHOR._seed(seed_num)`: seeds the process-global generators
(`random.seed` and `np.random.seed`) from the one integer. -/
def GymTHOR._seed (seed_num : Nat) : Rng :=
  Rng.seed seed_num

/-- `GymTHOR.step(action)`:
1. `assert action in self.action_space, 'Invalid action'` — evaluating the
   `action_space` property raises `NotImplementedError` on the bare base
   class; on a concrete subclass the assertion fails for an action outside
   the space;
2. if `self._episode_already_done`, returns `(None, None, True, None)`;
3. otherwise `raise NotImplementedError()` — the increment of `time_step`,
   the `episode_done` evaluation and the `(observation, reward, done,
   metadata)` return that follow it in the source are dead code and are
   never reached.
No path contacts the controller or mutates the wrapper state. -/
def GymTHOR.step (s : GymTHOR) (action : ℤ) :
    Except PyError (Option (List ℚ) × Option ℚ × Bool × Option EventMetadata) × GymTHOR :=
  match s.action_space with
  | none => (.error .notImplementedError, s)
  | some space =>
    if action ∈ space then
      if s._episode_already_done then
        (.ok (none, none, true, none), s)
      else
        (.error .notImplementedError, s)
    else
      (.error (.assertionError "Invalid action"), s)

/-- `GymTHOR.initial_scene_positions()`: for each scene name in order,
resets the controller into the scene, issues `GetReachablePositions`, and
records the event's reachable positions under the scene name.  Returns the
scene-to-positions dictionary. -/
def GymTHOR.initial_scene_positions (env : ControllerEnv) (s : GymTHOR) :
    List (String × List Vec3) × GymTHOR :=
  let (reachable_positions, c) := s._scene_names.foldl
    (fun acc scene =>
      let (_, c1) := Controller.reset acc.2 env scene
      let (event, c2) := Controller.step c1 env (.getReachablePositions none)
      (dictSet acc.1 scene event.metadata.reachablePositions, c2))
    (([] : List (String × List Vec3)), s.controller)
  (reachable_positions, { s with controller := c })

/-- `GymTHOR._get_all_reachable_positions()`: for each scene name in order,
resets the controller into the scene, issues `GetReachablePositions`, and
records the event's reachable positions under the scene name.  Returns the
scene-to-positions dictionary. -/
def GymTHOR._get_all_reachable_positions (env : ControllerEnv) (s : GymTHOR) :
    List (String × List Vec3) × GymTHOR :=
  let (reachable_positions, c) := s._scene_names.foldl
    (fun acc scene =>
      let (_, c1) := Controller.reset acc.2 env scene
      let (event, c2) := Controller.step c1 env (.getReachablePositions none)
      (dictSet acc.1 scene event.metadata.reachablePositions, c2))
    (([] : List (String × List Vec3)), s.controller)
  (reachable_positions, { s with controller := c })

/-- `GymTHOR.reset()` (reading the statements of the source in order; the
source block's inconsistent indentation is a syntactic slip, not control
flow):
1. `self._episode_already_done = False`;
2. `scene = random.choice(self._scene_names)` (`IndexError` when empty);
3. `self.controller.reset(scene)`;
4. `rand_xyz_pos = random.choice(self.initial_positions[scene])`
   (`KeyError` when the scene is not in the table, `IndexError` when its
   position list is empty);
5. `rand_yaw = random.choice(np.arange(0, 360, self.rotateStepDegrees))`;
6. `self.controller.step(action='TeleportFull',
   rotation=dict(x=0.0, y=rand_yaw, z=0.0), **rand_xyz_pos)`;
7. returns `self.observation(self.controller.last_event)`.
`time_step` is never touched. -/
def GymTHOR.reset (env : ControllerEnv) (s : GymTHOR) (rng : Rng) :
    Except PyError (List ℚ) × GymTHOR × Rng :=
  let s := { s with _episode_already_done := false }
  match randomChoice rng s._scene_names with
  | none => (.error .indexError, s, rng)
  | some (scene, rng1) =>
    let c1 := (Controller.reset s.controller env scene).2
    let s := { s with controller := c1 }
    match dictGet s.initial_positions scene with
    | none => (.error .keyError, s, rng1)
    | some positions =>
      match randomChoice rng1 positions with
      | none => (.error .indexError, s, rng1)
      | some (rand_xyz_pos, rng2) =>
        match randomChoice rng2 (npArange 360 s.rotateStepDegrees) with
        | none => (.error .indexError, s, rng2)
        | some (rand_yaw, rng3) =>
          let c2 := (Controller.step s.controller env
            (.teleportFull rand_xyz_pos.x rand_xyz_pos.y rand_xyz_pos.z
              { x := 0, y := rand_yaw, z := 0 } none)).2
          let s := { s with controller := c2 }
          (.ok (GymTHOR.observation s.controller.last_event), s, rng3)

/-- `n` successive `reset()` calls starting from generator state `rng`.
The returned wrapper state's controller trace records every chosen scene,
start position and yaw as the parameters of the issued requests. -/
def GymTHOR.resetRuns (env : ControllerEnv) (s : GymTHOR) (rng : Rng) :
    Nat → GymTHOR × Rng
  | 0 => (s, rng)
  | n + 1 =>
    let (_, s1, rng1) := GymTHOR.reset env s rng
    GymTHOR.resetRuns env s1 rng1 n

/-! ## Concrete fixtures

A small concrete instantiation (one scene, two reachable positions,
`rotateStepDegrees = 90`, seed 42 — the example scenario of the spec),
used by the closed witness and counterexample theorems below. -/

/-- A fixed agent snapshot: position (1, 0.9, 2), yaw 90, camera pitch 30. -/
def sampleAgentMetadata : AgentMetadata :=
  { position := { x := 1, y := 9/10, z := 2 }
  , rotation := { x := 0, y := 90, z := 0 }
  , cameraHorizon := 30 }

/-- A fixed event with a 3-value frame and two reachable positions. -/
def sampleEvent : Event :=
  { frame := [0, 51, 255]
  , metadata :=
    { agent := sampleAgentMetadata
    , reachablePositions := [{ x := 0, y := 9/10, z := 0 }, { x := 1, y := 9/10, z := 0 }]
    , lastActionSuccess := true } }

/-- A trivial simulator oracle: every request leaves the latest event as it
was.  The witnesses below constrain only the adapter code's own behaviour,
never the simulator's. -/
def constEnv : ControllerEnv := fun _ e => e

/-- A controller whose latest event is `sampleEvent`, with an empty trace. -/
def sampleController : Controller :=
  { last_event := sampleEvent, trace := [] }

/-- A facade state whose stored horizon (0) differs from the latest event's
camera horizon (30). -/
def sampleJarvis : Jarvis :=
  { _base_controller := sampleController, horizon := 0 }

/-- A wrapper state mid-episode: one scene, two recorded reachable
positions, `rotateStepDegrees = 90`, `time_step = 5`, not yet done, with
the discrete action space {0, 1, 2, 3}. -/
def sampleGym : GymTHOR :=
  { controller := sampleController
  , frame_height := 1
  , frame_width := 3
  , _scene_names := ["Kitchen"]
  , initial_positions :=
      [("Kitchen", [{ x := 0, y := 9/10, z := 0 }, { x := 1, y := 9/10, z := 0 }])]
  , _episode_already_done := false
  , time_step := 5
  , horizon := 200
  , rotateStepDegrees := 90
  , action_space := some [0, 1, 2, 3] }

/-- `sampleGym` with the episode already marked done. -/
def sampleGymDone : GymTHOR :=
  { sampleGym with _episode_already_done := true }

/-- The wrapper state produced by `reset()` on `sampleGym` under `constEnv`
from seed 42: the scene request and the teleport request (position
(0, 0.9, 0) of the recorded table, yaw 90 = 1·90) are on the trace; the
done flag stays false and `time_step` keeps its prior value 5. -/
def sampleResetState : GymTHOR :=
  { sampleGym with controller :=
      { last_event := sampleEvent
      , trace := [ControllerAction.resetScene "Kitchen",
                  ControllerAction.teleportFull 0 (9/10) 0
                    { x := 0, y := 90, z := 0 } none] } }

/-! ## Helper lemmas -/

/-- A successful `random.choice` returns a member of the sequence. -/
theorem randomChoice_mem {α : Type} {r r1 : Rng} {xs : List α} {a : α}
    (h : randomChoice r xs = some (a, r1)) : a ∈ xs := by
  cases xs with
  | nil => simp [randomChoice] at h
  | cons x rest =>
    have h2 := h
    simp [randomChoice] at h2
    rw [← h2.1]
    exact List.getElem_mem _

/-- Every element of `np.arange(0, 360, step)` (for positive `step`) is a
nonnegative multiple of `step` that is strictly below 360. -/
theorem npArange_mem {q step : ℚ} (hstep : 0 < step) (hq : q ∈ npArange 360 step) :
    ∃ k : ℕ, q = (k : ℚ) * step ∧ (k : ℚ) * step < 360 := by
  unfold npArange at hq
  obtain ⟨k, hk, hkq⟩ := List.mem_map.mp hq
  rw [List.mem_range] at hk
  refine ⟨k, hkq.symm, ?_⟩
  have h1 : (k : ℤ) < Int.ceil ((360 : ℚ) / step) := Int.lt_toNat.mp hk
  have h3 : (k : ℚ) < 360 / step := by exact_mod_cast Int.lt_ceil.mp h1
  calc (k : ℚ) * step < 360 / step * step := mul_lt_mul_of_pos_right h3 hstep
    _ = 360 := div_mul_cancel₀ _ (ne_of_gt hstep)

/-- Concrete evaluation: the first draw from seed 42 picks the only scene. -/
theorem randomChoice_scene_eval :
    randomChoice (Rng.seed 42) ["Kitchen"] = some ("Kitchen", ⟨1250496027⟩) := by
  norm_num [randomChoice, Rng.next, Rng.seed]

/-- Concrete evaluation: the recorded position table of `sampleGym` at its
only scene. -/
theorem dictGet_sample_eval :
    dictGet sampleGym.initial_positions "Kitchen" =
      some [{ x := 0, y := 9/10, z := 0 }, { x := 1, y := 9/10, z := 0 }] := by
  simp [dictGet, sampleGym, List.find?]

/-- Concrete evaluation: the second draw picks the first recorded position. -/
theorem randomChoice_pos_eval :
    randomChoice (⟨1250496027⟩ : Rng)
      [({ x := 0, y := 9/10, z := 0 } : Vec3), { x := 1, y := 9/10, z := 0 }] =
      some ({ x := 0, y := 9/10, z := 0 }, ⟨1116302264⟩) := by
  norm_num [randomChoice, Rng.next]

/-- Concrete evaluation: `np.arange(0, 360, 90)`. -/
theorem npArange_90_eval : npArange 360 90 = [0, 90, 180, 270] := by
  have hc : (Int.ceil ((360:ℚ) / 90)).toNat = 4 := by
    norm_num
    decide
  rw [npArange, hc]
  norm_num [List.range_succ]

/-- Concrete evaluation: the third draw picks yaw 90. -/
theorem randomChoice_yaw_eval :
    randomChoice (⟨1116302264⟩ : Rng) (npArange 360 90) = some (90, ⟨1000676753⟩) := by
  rw [npArange_90_eval]
  norm_num [randomChoice, Rng.next]

/-- Concrete evaluation of one full `reset()` from seed 42 on `sampleGym`:
the scene "Kitchen", position (0, 0.9, 0) and yaw 90 are drawn, the two
requests go out, and the normalized frame comes back. -/
theorem sampleReset_eval :
    GymTHOR.reset constEnv sampleGym (Rng.seed 42) =
      (Except.ok [0, 1/5, 1], sampleResetState, ⟨1000676753⟩) := by
  unfold GymTHOR.reset
  dsimp only
  rw [show sampleGym._scene_names = ["Kitchen"] from rfl, randomChoice_scene_eval]
  dsimp only
  rw [dictGet_sample_eval]
  dsimp only
  rw [randomChoice_pos_eval]
  dsimp only
  rw [show sampleGym.rotateStepDegrees = (90 : ℚ) from rfl, randomChoice_yaw_eval]
  dsimp only
  norm_num [GymTHOR.observation, Controller.step, Controller.reset, constEnv,
    sampleResetState, sampleGym, sampleController, sampleEvent, sampleAgentMetadata,
    Prod.ext_iff]

/-! ## Claim theorems -/

/-- Claim C8: `Jarvis.pose` returns a record whose x, z, rot_y and horizon
all originate from the one latest event of the wrapped controller — never
mixing fields of different simulator ticks — and building the record issues
no controller request: the facade state, its controller trace included,
comes back unchanged. -/
theorem C8_pose_single_snapshot (s : Jarvis) :
    Jarvis.pose s =
      ({ x := s._base_controller.last_event.metadata.agent.position.x
        , z := s._base_controller.last_event.metadata.agent.position.z
        , rot_y := s._base_controller.last_event.metadata.agent.rotation.y
        , horizon := s._base_controller.last_event.metadata.agent.cameraHorizon }, s) :=
  rfl

/-- Claim C4, counterexample: on a state whose stored facade horizon (0)
differs from the latest event's camera horizon (30), `teleport` with every
field omitted issues a `TeleportFull` whose horizon is 0, while the pose
recorded immediately before the call has horizon 30 — so the omitted
`horizon` field does not equal the corresponding field of the prior pose,
refuting the claim as stated. -/
theorem C4_counterexample :
    (Jarvis.teleport constEnv sampleJarvis none none none none).2._base_controller.trace =
      [ControllerAction.teleportFull 1 (9/10) 2 { x := 0, y := 90, z := 0 } (some 0)] ∧
    (Jarvis.pose sampleJarvis).1.horizon = 30 ∧
    (0 : ℚ) ≠ 30 :=
  ⟨rfl, rfl, by norm_num⟩

/-- Claim C4, amended: for every teleport call, the issued `TeleportFull`
request defaults each omitted `x`, `z`, `rot_y` to the corresponding field
of the pose recorded immediately before the call, carries `y`, `rot_x` and
`rot_z` over from the current event unconditionally, but defaults an
omitted `horizon` to the facade's stored last-requested horizon, not to the
pose's (event's) camera horizon. -/
theorem C4_teleport_defaults (env : ControllerEnv) (s : Jarvis)
    (x z rot_y horizon : Option ℚ) :
    (Jarvis.teleport env s x z rot_y horizon).2._base_controller.trace =
      s._base_controller.trace ++
        [ControllerAction.teleportFull
          (x.getD (Jarvis.pose s).1.x)
          s._base_controller.last_event.metadata.agent.position.y
          (z.getD (Jarvis.pose s).1.z)
          { x := s._base_controller.last_event.metadata.agent.rotation.x
          , y := rot_y.getD (Jarvis.pose s).1.rot_y
          , z := s._base_controller.last_event.metadata.agent.rotation.z }
          (some (horizon.getD s.horizon))] :=
  rfl

/-- Claim C2: when the episode is already marked done, `step` on an action
of the (subclass-supplied) action space returns exactly the sentinel tuple
`(None, None, True, None)` and hands back the wrapper state untouched — in
particular the controller trace is unchanged, so no simulator call was
issued, and `time_step`, the done flag and the scene are as before. -/
theorem C2_step_after_done (s : GymTHOR) (space : List ℤ) (action : ℤ)
    (hspace : s.action_space = some space) (hmem : action ∈ space)
    (hdone : s._episode_already_done = true) :
    GymTHOR.step s action = (Except.ok (none, none, true, none), s) := by
  simp [GymTHOR.step, hspace, hmem, hdone]

/-- Claim C2, witness: the concrete done-state `sampleGymDone` with action
`0` of its space `[0, 1, 2, 3]`. -/
theorem C2_step_after_done_witness :
    sampleGymDone.action_space = some [0, 1, 2, 3] ∧ (0 : ℤ) ∈ [0, 1, 2, 3] ∧
    sampleGymDone._episode_already_done = true ∧
    GymTHOR.step sampleGymDone 0 = (Except.ok (none, none, true, none), sampleGymDone) :=
  ⟨rfl, by decide, rfl,
    C2_step_after_done sampleGymDone [0, 1, 2, 3] 0 rfl (by decide) rfl⟩

/-- Claim C3: with the episode not yet done, `step` on an action of the
action space raises `NotImplementedError` and leaves the wrapper state
untouched: it never dispatches the action to the controller (the trace is
unchanged), never increments `time_step`, never evaluates `episode_done`,
and returns no `(observation, reward, done, metadata)` tuple — the code
that would do so sits unreachable after the unconditional `raise`. -/
theorem C3_step_not_done_raises (s : GymTHOR) (space : List ℤ) (action : ℤ)
    (hspace : s.action_space = some space) (hmem : action ∈ space)
    (hdone : s._episode_already_done = false) :
    GymTHOR.step s action = (Except.error PyError.notImplementedError, s) := by
  simp [GymTHOR.step, hspace, hmem, hdone]

/-- Claim C3, witness: the concrete not-done state `sampleGym` with action
`0` of its space `[0, 1, 2, 3]`. -/
theorem C3_step_not_done_raises_witness :
    sampleGym.action_space = some [0, 1, 2, 3] ∧ (0 : ℤ) ∈ [0, 1, 2, 3] ∧
    sampleGym._episode_already_done = false ∧
    GymTHOR.step sampleGym 0 = (Except.error PyError.notImplementedError, sampleGym) :=
  ⟨rfl, by decide, rfl,
    C3_step_not_done_raises sampleGym [0, 1, 2, 3] 0 rfl (by decide) rfl⟩

/-- Claim C6: `step` on an action outside the (subclass-supplied) action
space fails with the assertion `'Invalid action'` and hands back the
wrapper state untouched — the assertion fires before any simulator call, so
the controller trace and all wrapper fields are unchanged. -/
theorem C6_step_invalid_action (s : GymTHOR) (space : List ℤ) (action : ℤ)
    (hspace : s.action_space = some space) (hmem : action ∉ space) :
    GymTHOR.step s action =
      (Except.error (PyError.assertionError "Invalid action"), s) := by
  simp [GymTHOR.step, hspace, hmem]

/-- Claim C6, witness: the concrete state `sampleGym` with action `7`,
which is outside its space `[0, 1, 2, 3]`. -/
theorem C6_step_invalid_action_witness :
    sampleGym.action_space = some [0, 1, 2, 3] ∧ (7 : ℤ) ∉ [0, 1, 2, 3] ∧
    GymTHOR.step sampleGym 7 =
      (Except.error (PyError.assertionError "Invalid action"), sampleGym) :=
  ⟨rfl, by decide, C6_step_invalid_action sampleGym [0, 1, 2, 3] 7 rfl (by decide)⟩

/-- Claim C7: two runs of the wrapper seeded with the same integer — the
generator state being consumed by `reset` alone, with no other consumer of
the process-global generators in between — make identical choices: after
any number of `reset()` calls the wrapper states (in particular the
controller traces, which record every chosen scene, start position and yaw
as request parameters) and generator states coincide. -/
theorem C7_seed_determinism (env : ControllerEnv) (s : GymTHOR) (n : Nat)
    (seed1 seed2 : Nat) (h : seed1 = seed2) :
    GymTHOR.resetRuns env s (GymTHOR._seed seed1) n =
      GymTHOR.resetRuns env s (GymTHOR._seed seed2) n := by
  rw [h]

/-- Claim C7, witness: two runs of two `reset()` calls from seed 42 on the
concrete `sampleGym`. -/
theorem C7_seed_determinism_witness :
    (42 : Nat) = 42 ∧
    GymTHOR.resetRuns constEnv sampleGym (GymTHOR._seed 42) 2 =
      GymTHOR.resetRuns constEnv sampleGym (GymTHOR._seed 42) 2 :=
  ⟨rfl, C7_seed_determinism constEnv sampleGym 2 42 42 rfl⟩

/-- Claim C10: `initial_scene_positions` and `_get_all_reachable_positions`
are extensionally equal: from any wrapper state and any simulator
behaviour they issue the same request sequence (the resulting states, with
their controller traces, are equal) and return equal scene-to-positions
dictionaries. -/
theorem C10_initial_scene_positions_equiv (env : ControllerEnv) (s : GymTHOR) :
    GymTHOR.initial_scene_positions env s = GymTHOR._get_all_reachable_positions env s :=
  rfl

/-- Claim C1, counterexample: from the concrete prior state `sampleGym`
with `time_step = 5`, `reset()` returns normally, yet the resulting
`time_step` is still 5, not 0 — refuting "after `reset()` returns,
`time_step` equals 0 regardless of prior episode state". -/
theorem C1_counterexample :
    GymTHOR.reset constEnv sampleGym (Rng.seed 42) =
      (Except.ok [0, 1/5, 1], sampleResetState, ⟨1000676753⟩) ∧
    sampleGym.time_step = 5 ∧
    sampleResetState.time_step = 5 ∧
    (5 : ℕ) ≠ 0 :=
  ⟨sampleReset_eval, rfl, rfl, by decide⟩

/-- Claim C1, amended: after `reset()` returns (on every branch, error
exits included), the episode-done flag is false, but `time_step` is NOT
reset: it carries over unchanged from the previous episode. -/
theorem C1_reset_clears_done_keeps_time_step (env : ControllerEnv) (s : GymTHOR)
    (rng : Rng) :
    (GymTHOR.reset env s rng).2.1._episode_already_done = false ∧
    (GymTHOR.reset env s rng).2.1.time_step = s.time_step := by
  unfold GymTHOR.reset
  dsimp only
  constructor
  · repeat' split
    all_goals rfl
  · repeat' split
    all_goals rfl

/-- Claim C5: whenever `reset()` returns normally (and the rotation step is
positive), the scene it reset into is one of the wrapper's scene names, the
position it sent in the `TeleportFull` request is a member of that scene's
recorded reachable-position table built at construction, and the yaw it
sent is `k·rotateStepDegrees` for a natural `k` with
`k·rotateStepDegrees < 360`. -/
theorem C5_reset_position_and_yaw (env : ControllerEnv) (s : GymTHOR) (rng : Rng)
    (hstep : 0 < s.rotateStepDegrees)
    (obs : List ℚ) (s1 : GymTHOR) (rng1 : Rng)
    (h : GymTHOR.reset env s rng = (Except.ok obs, s1, rng1)) :
    ∃ (scene : String) (positions : List Vec3) (pos : Vec3) (k : ℕ),
      scene ∈ s._scene_names ∧
      dictGet s.initial_positions scene = some positions ∧
      pos ∈ positions ∧
      (k : ℚ) * s.rotateStepDegrees < 360 ∧
      s1.controller.trace =
        s.controller.trace ++
          [ControllerAction.resetScene scene,
           ControllerAction.teleportFull pos.x pos.y pos.z
             { x := 0, y := (k : ℚ) * s.rotateStepDegrees, z := 0 } none] := by
  unfold GymTHOR.reset at h
  dsimp only at h
  rcases hsc : randomChoice rng s._scene_names with _ | ⟨scene, rngA⟩ <;>
    rw [hsc] at h <;> dsimp only at h
  · simp at h
  rcases hpos : dictGet s.initial_positions scene with _ | positions <;>
    rw [hpos] at h <;> dsimp only at h
  · simp at h
  rcases hch : randomChoice rngA positions with _ | ⟨pos, rngB⟩ <;>
    rw [hch] at h <;> dsimp only at h
  · simp at h
  rcases hyaw : randomChoice rngB (npArange 360 s.rotateStepDegrees) with _ | ⟨yaw, rngC⟩ <;>
    rw [hyaw] at h <;> dsimp only at h
  · simp at h
  obtain ⟨k, hk, hklt⟩ := npArange_mem hstep (randomChoice_mem hyaw)
  refine ⟨scene, positions, pos, k, randomChoice_mem hsc, hpos, randomChoice_mem hch,
    hklt, ?_⟩
  rw [Prod.mk.injEq, Prod.mk.injEq] at h
  obtain ⟨-, hstate, -⟩ := h
  rw [← hstate, ← hk]
  simp [Controller.step, Controller.reset]

/-- Claim C5, witness: the concrete `reset()` from seed 42 on `sampleGym`
(rotation step 90). -/
theorem C5_reset_position_and_yaw_witness :
    0 < sampleGym.rotateStepDegrees ∧
    ∃ (scene : String) (positions : List Vec3) (pos : Vec3) (k : ℕ),
      scene ∈ sampleGym._scene_names ∧
      dictGet sampleGym.initial_positions scene = some positions ∧
      pos ∈ positions ∧
      (k : ℚ) * sampleGym.rotateStepDegrees < 360 ∧
      sampleResetState.controller.trace =
        sampleGym.controller.trace ++
          [ControllerAction.resetScene scene,
           ControllerAction.teleportFull pos.x pos.y pos.z
             { x := 0, y := (k : ℚ) * sampleGym.rotateStepDegrees, z := 0 } none] :=
  ⟨by norm_num [sampleGym],
    C5_reset_position_and_yaw constEnv sampleGym (Rng.seed 42)
      (by norm_num [sampleGym]) [0, 1/5, 1] sampleResetState ⟨1000676753⟩
      sampleReset_eval⟩

/-- Claim C9: every `TeleportFull` request issued by `reset()` (the actions
it appends to the controller trace) carries a rotation whose x and z
components are exactly 0 — only the yaw component is randomized, whatever
the agent's pitch/roll was before the reset. -/
theorem C9_reset_teleport_zero_pitch_roll (env : ControllerEnv) (s : GymTHOR)
    (rng : Rng) (a : ControllerAction)
    (ha : a ∈ ((GymTHOR.reset env s rng).2.1.controller.trace).drop
      s.controller.trace.length)
    (x y z : ℚ) (rot : Vec3) (hor : Option ℚ)
    (heq : a = ControllerAction.teleportFull x y z rot hor) :
    rot.x = 0 ∧ rot.z = 0 := by
  subst heq
  unfold GymTHOR.reset at ha
  dsimp only at ha
  repeat' split at ha
  all_goals
    simp [Controller.reset, Controller.step, List.append_assoc] at ha
  obtain ⟨-, -, -, hrot, -⟩ := ha
  rw [hrot]
  exact ⟨rfl, rfl⟩

/-- Claim C9, witness: the teleport request of the concrete `reset()` from
seed 42 on `sampleGym` has rotation x and z equal to 0. -/
theorem C9_reset_teleport_zero_pitch_roll_witness :
    (ControllerAction.teleportFull 0 (9/10) 0 { x := 0, y := 90, z := 0 } none ∈
      ((GymTHOR.reset constEnv sampleGym (Rng.seed 42)).2.1.controller.trace).drop
        sampleGym.controller.trace.length) ∧
    (Vec3.x { x := 0, y := 90, z := 0 } = 0 ∧ Vec3.z { x := 0, y := 90, z := 0 } = 0) := by
  have hmem : ControllerAction.teleportFull 0 (9/10) 0 { x := 0, y := 90, z := 0 } none ∈
      ((GymTHOR.reset constEnv sampleGym (Rng.seed 42)).2.1.controller.trace).drop
        sampleGym.controller.trace.length := by
    rw [sampleReset_eval]
    simp [sampleResetState, sampleGym, sampleController]
  exact ⟨hmem,
    C9_reset_teleport_zero_pitch_roll constEnv sampleGym (Rng.seed 42) _ hmem
      0 (9/10) 0 { x := 0, y := 90, z := 0 } none rfl⟩
